import Mathlib

/-!
A shallow embedding of the request/response pipeline of
`src/clashroyale/client.py` from the `clashroyale` Python package,
together with theorems settling the specification claims about it.

Modelling conventions:
* Wall-clock time (`datetime.utcnow()`) is passed in explicitly as
  `now : Nat` (epoch seconds); freshness arithmetic is done in `Int`,
  matching the signed `total_seconds()` comparison in the source.
* The HTTP collaborator is modelled by a `FetchOutcome` argument: the
  outcome the network would produce if the pipeline performed the GET.
  The third component of each pipeline result records whether the
  network was actually consulted.
* `json.loads(text)` with its bare-`except` fallback is modelled by giving
  each response its parsed-or-raw body directly as a `Data` value; an
  unparseable body is represented as `Data.str text`.
* The sqlite-backed cache (`SqliteDict`, an external collaborator) is an
  association list from string keys to entries; `cacheGet`/`cacheSet` are
  its `get`/`__setitem__` semantics.
* Python's dynamic typing at the two tuple-unpacking sites
  (`data, cached, ts = ...`) is modelled explicitly: unpacking `None` or a
  coroutine object raises a generic `TypeError`, embedded as
  `PyError.typeError`.
* A coroutine is a tagged value: `ReqRet.coro r` is an awaitable whose
  completion yields `r` (raising when `r` is an error).  `observe` drives
  an awaitable to completion, as an asynchronous caller does with `await`.
-/

/-- A JSON-like payload value: the result of `json.loads` on a response
body (or the raw text, as `Data.str`, when parsing fails).  The pipeline
only ever discriminates string / list / other, so structured records are
carried opaquely as `obj` field lists. -/
inductive Data where
  | str (s : String)
  | num (n : Int)
  | arr (elems : List Data)
  | obj (fields : List (String × Data))

/-- `isinstance(x, str)` on a payload value. -/
def Data.isStr : Data → Bool
  | .str _ => true
  | _ => false

/-- An HTTP response as the pipeline observes it: status code
(`resp.status` / `resp.status_code`), parsed-or-raw body, and the resolved
request URL `str(resp.url)` as reported by the HTTP library. -/
structure Response where
  status : Nat
  body : Data
  url : String

/-- The closed error taxonomy of `clashroyale.errors` as raised by the
pipeline: `Unauthorized`, `NotFoundError` and `ServerError` carry the
response and its parsed-or-raw body; `NotResponding` carries nothing. -/
inductive ApiError where
  | unauthorized (resp : Response) (body : Data)
  | notFoundError (resp : Response) (body : Data)
  | serverError (resp : Response) (body : Data)
  | notResponding

/-- Any exception escaping the pipeline: a taxonomy error, or a generic
Python runtime error (the `TypeError` raised when unpacking `None` or a
coroutine object into `data, cached, ts`). -/
inductive PyError where
  | api (e : ApiError)
  | typeError

/-- One cache entry, as stored by `_raise_for_status`:
`{'c_timestamp': ..., 'data': ...}`. -/
structure CacheEntry where
  c_timestamp : Nat
  data : Data

/-- The external key-value cache store. -/
abbrev Cache := List (String × CacheEntry)

/-- `self.cache.get(key)`. -/
def cacheGet (c : Cache) (k : String) : Option CacheEntry :=
  match c with
  | [] => none
  | (k₁, e) :: rest => if k₁ = k then some e else cacheGet rest k

/-- `self.cache[key] = entry` (overwrites an existing entry for `key`). -/
def cacheSet (c : Cache) (k : String) (e : CacheEntry) : Cache :=
  match c with
  | [] => [(k, e)]
  | (k₁, e₁) :: rest => if k₁ = k then (k, e) :: rest else (k₁, e₁) :: cacheSet rest k e

/-- `urllib.parse.urlencode(params)`; percent-encoding of the external
library is abstracted to plain `k=v` pairs joined by `&`. -/
def urlencode (params : List (String × String)) : String :=
  String.intercalate "&" (params.map fun p => p.1 ++ "=" ++ p.2)

/-- The cache lookup key built by `_resolve_cache`:
`url + (('?' + urlencode(params)) if params else '')`. -/
def bucket (url : String) (params : List (String × String)) : String :=
  if params = [] then url else url ++ "?" ++ urlencode params

/-- The client configuration fixed by `Client.__init__` (the HTTP session
and the `SqliteDict` handle are external collaborators and are not part of
the state the pipeline branches on). -/
structure Client where
  token : String
  isAsync : Bool
  timeout : Nat
  camelCase : Bool
  usingCache : Bool
  cacheReset : Int

/-- The keyword `**options` accepted by `Client.__init__`. -/
structure Options where
  timeout : Option Nat
  cache_fp : Option String
  cache_expires : Option Int
  table_name : Option String
  camel_case : Option Bool

/-- `Client.__init__(token, session=None, is_async=False, **options)`:
`timeout = options.get('timeout', 10)`,
`using_cache = bool(cache_fp)` (absent or empty path disables caching),
`cache_reset = options.get('cache_expires', 300)`. -/
def Client.init (token : String) (is_async : Bool) (opts : Options) : Client :=
  { token := token
    isAsync := is_async
    timeout := opts.timeout.getD 10
    camelCase := opts.camel_case.getD false
    usingCache := !(opts.cache_fp.getD "").isEmpty
    cacheReset := opts.cache_expires.getD 300 }

/-- The freshness test inside `_resolve_cache`: the stored entry for the
bucket, provided `(utcnow() - last_updated).total_seconds() < cache_reset`.
Yields the stored payload and its capture timestamp. -/
def Client.resolve_cache_hit (cl : Client) (cache : Cache) (url : String)
    (params : List (String × String)) (now : Nat) : Option (Data × Nat) :=
  match cacheGet cache (bucket url params) with
  | none => none
  | some cd =>
    if (now : Int) - (cd.c_timestamp : Int) < cl.cacheReset then
      some (cd.data, cd.c_timestamp)
    else none

/-- The value returned by `_resolve_cache` on a fresh hit: a plain 3-tuple
in synchronous mode, or that tuple wrapped in a coroutine
(`self._wrap_coro(ret)`) in asynchronous mode. -/
inductive CacheHit where
  | tup (d : Data) (cached : Bool) (ts : Nat)
  | coro (d : Data) (cached : Bool) (ts : Nat)

/-- `Client._resolve_cache`: `None` on a miss or an expired entry;
otherwise `(data, True, last_updated)`, coroutine-wrapped when
`self.is_async`. -/
def Client.resolve_cache (cl : Client) (cache : Cache) (url : String)
    (params : List (String × String)) (now : Nat) : Option CacheHit :=
  match cl.resolve_cache_hit cache url params now with
  | none => none
  | some (d, ts) =>
    some (if cl.isAsync then CacheHit.coro d true ts else CacheHit.tup d true ts)

/-- `Client._raise_for_status(resp, text)`.  Returns the value the Python
function returns (`(data, False, utcnow())` on 2xx, `None` on an unhandled
status) or the error it raises, together with the cache state afterwards:
on a 2xx status with caching enabled the payload is stored under
`str(resp.url)`; every other status leaves the cache untouched. -/
def Client.raise_for_status (cl : Client) (cache : Cache) (resp : Response)
    (now : Nat) : Except ApiError (Option (Data × Bool × Nat)) × Cache :=
  let data := resp.body
  let code := resp.status
  if 200 ≤ code ∧ code < 300 then
    let cache1 := if cl.usingCache then cacheSet cache resp.url ⟨now, data⟩ else cache
    (Except.ok (some (data, false, now)), cache1)
  else if code = 401 then (Except.error (ApiError.unauthorized resp data), cache)
  else if code = 404 then (Except.error (ApiError.notFoundError resp data), cache)
  else if 500 ≤ code then (Except.error (ApiError.serverError resp data), cache)
  else (Except.ok none, cache)

/-- What the network would produce if the pipeline performed the GET:
a timeout (`requests.Timeout` / `asyncio.TimeoutError`) or a response. -/
inductive FetchOutcome where
  | timeout
  | ok (resp : Response)

/-- The value `Client.request` hands back to its caller: a plain value
(a 3-tuple or `None`) in synchronous mode, or a coroutine whose
completion yields such a value or raises. -/
inductive ReqRet where
  | val (v : Option (Data × Bool × Nat))
  | coro (r : Except ApiError (Option (Data × Bool × Nat)))

/-- Driving an awaitable to completion: `await` on a coroutine yields its
payload or raises its error; a plain value passes through. -/
def observe : Except ApiError ReqRet → Except ApiError (Option (Data × Bool × Nat))
  | Except.error e => Except.error e
  | Except.ok (ReqRet.val v) => Except.ok v
  | Except.ok (ReqRet.coro r) => r

/-- The eventual result of the `Client._arequest` coroutine: `NotResponding`
on `asyncio.TimeoutError`, otherwise `_raise_for_status` on the response. -/
def Client.arequest (cl : Client) (cache : Cache) (now : Nat)
    (net : FetchOutcome) : Except ApiError (Option (Data × Bool × Nat)) × Cache :=
  match net with
  | FetchOutcome.timeout => (Except.error ApiError.notResponding, cache)
  | FetchOutcome.ok resp => cl.raise_for_status cache resp now

/-- The network half of `Client.request` (lines reached after the cache
check): in asynchronous mode the `_arequest` coroutine is returned (its
effects happen when the caller awaits it; every returned awaitable is
driven to completion); in synchronous mode `session.get` runs in place,
`requests.Timeout` becomes `NotResponding`, and `_raise_for_status`
classifies the response.  The `Bool` records that the network was used. -/
def Client.request_net (cl : Client) (cache : Cache) (now : Nat)
    (net : FetchOutcome) : Except ApiError ReqRet × Cache × Bool :=
  if cl.isAsync then
    match cl.arequest cache now net with
    | (r, cache1) => (Except.ok (ReqRet.coro r), cache1, true)
  else
    match net with
    | FetchOutcome.timeout => (Except.error ApiError.notResponding, cache, true)
    | FetchOutcome.ok resp =>
      match cl.raise_for_status cache resp now with
      | (Except.ok v, cache1) => (Except.ok (ReqRet.val v), cache1, true)
      | (Except.error e, cache1) => (Except.error e, cache1, true)

/-- `Client.request(url, refresh=False, **params)`: when caching is on and
no forced refresh was asked for, a fresh cache hit is returned directly
(no network use); otherwise the network half runs. -/
def Client.request (cl : Client) (cache : Cache) (url : String)
    (refresh : Bool) (params : List (String × String)) (now : Nat)
    (net : FetchOutcome) : Except ApiError ReqRet × Cache × Bool :=
  if cl.usingCache && !refresh then
    match cl.resolve_cache cache url params now with
    | some (CacheHit.tup d c ts) => (Except.ok (ReqRet.val (some (d, c, ts))), cache, false)
    | some (CacheHit.coro d c ts) =>
      (Except.ok (ReqRet.coro (Except.ok (some (d, c, ts)))), cache, false)
    | none => cl.request_net cache now net
  else cl.request_net cache now net

/-- The `except Exception as e` block shared verbatim by `_get_model` and
`_aget_model`: with caching enabled, `_resolve_cache` is consulted; a
synchronous hit is unpacked into `data, cached, ts`; an asynchronous hit is
a coroutine object whose unpacking raises `TypeError` (it is not awaited);
with no hit, `data` was never bound and the original error is re-raised. -/
def Client.fallback_resolve (cl : Client) (e : PyError) (cache : Cache)
    (url : String) (params : List (String × String)) (now : Nat) :
    Except PyError (Data × Bool × Nat) :=
  if cl.usingCache then
    match cl.resolve_cache cache url params now with
    | some (CacheHit.tup d c ts) => Except.ok (d, c, ts)
    | some (CacheHit.coro _ _ _) => Except.error PyError.typeError
    | none => Except.error e
  else Except.error e

/-- The `try`/`except` body of `Client._get_model` (synchronous mode):
`data, cached, ts = self.request(url, **params)` with fallback.  Unpacking
`None` (an unhandled status fell through `_raise_for_status`) or a
coroutine raises `TypeError`, caught by the handler. -/
def Client.get_model_data (cl : Client) (cache : Cache) (url : String)
    (params : List (String × String)) (now : Nat) (net : FetchOutcome) :
    Except PyError (Data × Bool × Nat) × Cache × Bool :=
  match cl.request cache url false params now net with
  | (Except.ok (ReqRet.val (some t)), cache1, n1) => (Except.ok t, cache1, n1)
  | (Except.ok (ReqRet.val none), cache1, n1) =>
    (cl.fallback_resolve PyError.typeError cache1 url params now, cache1, n1)
  | (Except.ok (ReqRet.coro _), cache1, n1) =>
    (cl.fallback_resolve PyError.typeError cache1 url params now, cache1, n1)
  | (Except.error e, cache1, n1) =>
    (cl.fallback_resolve (PyError.api e) cache1 url params now, cache1, n1)

/-- The `try`/`except` body of `Client._aget_model` (asynchronous mode):
`data, cached, ts = await self.request(url, **params)`, the awaitable
driven to completion, with the same fallback handler. -/
def Client.aget_model_data (cl : Client) (cache : Cache) (url : String)
    (params : List (String × String)) (now : Nat) (net : FetchOutcome) :
    Except PyError (Data × Bool × Nat) × Cache × Bool :=
  match cl.request cache url false params now net with
  | (r, cache1, n1) =>
    match observe r with
    | Except.ok (some t) => (Except.ok t, cache1, n1)
    | Except.ok none =>
      (cl.fallback_resolve PyError.typeError cache1 url params now, cache1, n1)
    | Except.error e =>
      (cl.fallback_resolve (PyError.api e) cache1 url params now, cache1, n1)

/-- A typed model object as constructed by `model(self, d, cached=..., ts=...)`:
it receives the client reference, the raw record, the cache-provenance flag
and the timestamp. -/
structure ModelObj where
  client : Client
  data : Data
  cached : Bool
  ts : Nat

/-- The `rlist` sequence decorator, `rlist(self, data, cached, ts)`: a list
of bare strings together with the client reference and the
cache/timestamp metadata. -/
structure RListObj where
  client : Client
  elems : List Data
  cached : Bool
  ts : Nat

/-- The value `_convert_model` returns: the bare string unchanged, an
`rlist` decorator, one model per record, or a single model. -/
inductive ConvertResult where
  | rawStr (s : String)
  | strList (r : RListObj)
  | modelList (ms : List ModelObj)
  | single (m : ModelObj)

/-- `Client._convert_model(data, cached, ts, model)`. -/
def Client.convert_model (cl : Client) (data : Data) (cached : Bool)
    (ts : Nat) : ConvertResult :=
  match data with
  | Data.str s => ConvertResult.rawStr s
  | Data.arr xs =>
    if xs.all Data.isStr then ConvertResult.strList ⟨cl, xs, cached, ts⟩
    else ConvertResult.modelList (xs.map fun d => ⟨cl, d, cached, ts⟩)
  | d => ConvertResult.single ⟨cl, d, cached, ts⟩

/-- `Client._get_model` past the `try`/`except`: the successful triple is
handed to `_convert_model`; an escaping error propagates. -/
def Client.get_model (cl : Client) (cache : Cache) (url : String)
    (params : List (String × String)) (now : Nat) (net : FetchOutcome) :
    Except PyError ConvertResult × Cache × Bool :=
  match cl.get_model_data cache url params now net with
  | (r, cache1, n1) =>
    (r.map (fun t => cl.convert_model t.1 t.2.1 t.2.2), cache1, n1)

/-- `Client._aget_model` past the `try`/`except`. -/
def Client.aget_model (cl : Client) (cache : Cache) (url : String)
    (params : List (String × String)) (now : Nat) (net : FetchOutcome) :
    Except PyError ConvertResult × Cache × Bool :=
  match cl.aget_model_data cache url params now net with
  | (r, cache1, n1) =>
    (r.map (fun t => cl.convert_model t.1 t.2.1 t.2.2), cache1, n1)

/-! ### Helper lemmas -/

@[simp]
theorem usingCache_set_isAsync (c : Client) (b : Bool) :
    ({ c with isAsync := b } : Client).usingCache = c.usingCache := rfl

@[simp]
theorem cacheReset_set_isAsync (c : Client) (b : Bool) :
    ({ c with isAsync := b } : Client).cacheReset = c.cacheReset := rfl

@[simp]
theorem isAsync_set_isAsync (c : Client) (b : Bool) :
    ({ c with isAsync := b } : Client).isAsync = b := rfl

theorem resolve_cache_hit_set_isAsync (c : Client) (b : Bool) (cache : Cache)
    (url : String) (params : List (String × String)) (now : Nat) :
    Client.resolve_cache_hit { c with isAsync := b } cache url params now =
      Client.resolve_cache_hit c cache url params now := rfl

theorem raise_for_status_set_isAsync (c : Client) (b : Bool) (cache : Cache)
    (resp : Response) (now : Nat) :
    Client.raise_for_status { c with isAsync := b } cache resp now =
      Client.raise_for_status c cache resp now := rfl

theorem resolve_cache_eq_map (cl : Client) (cache : Cache) (url : String)
    (params : List (String × String)) (now : Nat) :
    cl.resolve_cache cache url params now =
      (cl.resolve_cache_hit cache url params now).map
        (fun p => if cl.isAsync then CacheHit.coro p.1 true p.2
                  else CacheHit.tup p.1 true p.2) := by
  unfold Client.resolve_cache
  rcases cl.resolve_cache_hit cache url params now with _ | ⟨d, ts⟩ <;> rfl

theorem fallback_resolve_of_miss (cl : Client) (e : PyError) (cache : Cache)
    (url : String) (params : List (String × String)) (now : Nat)
    (h : cl.resolve_cache_hit cache url params now = none) :
    cl.fallback_resolve e cache url params now = Except.error e := by
  unfold Client.fallback_resolve
  rw [resolve_cache_eq_map, h]
  by_cases hu : cl.usingCache <;> simp [hu]

theorem cacheGet_set_self (c : Cache) (k : String) (e : CacheEntry) :
    cacheGet (cacheSet c k e) k = some e := by
  induction c with
  | nil => simp [cacheSet, cacheGet]
  | cons hd tl ih =>
    rcases hd with ⟨k₁, e₁⟩
    by_cases hk : k₁ = k <;> simp [cacheSet, cacheGet, hk, ih]

/-! ### Claim theorems -/

/-- C8: a client constructed without an explicit `cache_expires` option has
a cache expiry of exactly 300 seconds, and one constructed without an
explicit `timeout` option has a request timeout of exactly 10 seconds. -/
theorem default_config_values (token : String) (is_async : Bool)
    (fp : Option String) (tn : Option String) (cc : Option Bool) :
    (Client.init token is_async ⟨none, fp, none, tn, cc⟩).cacheReset = 300 ∧
    (Client.init token is_async ⟨none, fp, none, tn, cc⟩).timeout = 10 :=
  ⟨rfl, rfl⟩

/-- C10: model conversion applied to an empty list returns the `rlist`
string-sequence decorator wrapping the empty list (the all-strings test is
vacuously true on `[]`), not an empty list of typed models. -/
theorem convert_empty_list_is_rlist (c : Client) (cached : Bool) (ts : Nat) :
    c.convert_model (Data.arr []) cached ts =
      ConvertResult.strList ⟨c, [], cached, ts⟩ := rfl

/-- C7: model conversion returns a bare string unchanged; wraps an
all-string list in the `rlist` decorator with the cache flag and timestamp;
turns any other list into one typed model per element; and builds a single
typed model from any other payload — every constructed model receiving the
client reference, the cache-sourced flag and the timestamp. -/
theorem convert_model_shapes (c : Client) (data : Data) (cached : Bool) (ts : Nat) :
    (∀ s, data = Data.str s → c.convert_model data cached ts = ConvertResult.rawStr s) ∧
    (∀ xs, data = Data.arr xs → xs.all Data.isStr = true →
      c.convert_model data cached ts = ConvertResult.strList ⟨c, xs, cached, ts⟩) ∧
    (∀ xs, data = Data.arr xs → xs.all Data.isStr = false →
      c.convert_model data cached ts =
        ConvertResult.modelList (xs.map fun d => ⟨c, d, cached, ts⟩)) ∧
    ((∀ s, data ≠ Data.str s) → (∀ xs, data ≠ Data.arr xs) →
      c.convert_model data cached ts = ConvertResult.single ⟨c, data, cached, ts⟩) := by
  refine ⟨?_, ?_, ?_, ?_⟩
  · rintro s rfl; rfl
  · rintro xs rfl h; simp [Client.convert_model, h]
  · rintro xs rfl h; simp [Client.convert_model, h]
  · intro hs hl
    cases data with
    | str s => exact absurd rfl (hs s)
    | arr xs => exact absurd rfl (hl xs)
    | num n => rfl
    | obj fs => rfl

/-- C7 witness: the four conversion shapes at concrete payloads. -/
theorem convert_model_shapes_witness :
    (let c : Client := ⟨"t", false, 10, false, false, 300⟩
     c.convert_model (Data.str "v") true 5 = ConvertResult.rawStr "v" ∧
     c.convert_model (Data.arr [Data.str "a", Data.str "b"]) true 5 =
       ConvertResult.strList ⟨c, [Data.str "a", Data.str "b"], true, 5⟩ ∧
     c.convert_model (Data.arr [Data.num 1, Data.str "a"]) true 5 =
       ConvertResult.modelList [⟨c, Data.num 1, true, 5⟩, ⟨c, Data.str "a", true, 5⟩] ∧
     c.convert_model (Data.obj []) true 5 =
       ConvertResult.single ⟨c, Data.obj [], true, 5⟩) := by
  refine ⟨?_, ?_, ?_, ?_⟩
  · exact (convert_model_shapes _ _ true 5).1 "v" rfl
  · exact (convert_model_shapes _ _ true 5).2.1 _ rfl rfl
  · exact (convert_model_shapes _ _ true 5).2.2.1 _ rfl rfl
  · exact (convert_model_shapes _ _ true 5).2.2.2
      (by intro s h; cases h) (by intro xs h; cases h)

/-- C4: status 401 raises `Unauthorized`, 404 raises `NotFoundError`, and
any status at least 500 raises `ServerError`, each carrying the response
and its parsed-or-raw body; no non-2xx status changes the cache, and a 2xx
status with caching enabled stores the payload under the resolved URL. -/
theorem status_error_taxonomy (c : Client) (cache : Cache) (resp : Response)
    (now : Nat) :
    (resp.status = 401 →
      c.raise_for_status cache resp now =
        (Except.error (ApiError.unauthorized resp resp.body), cache)) ∧
    (resp.status = 404 →
      c.raise_for_status cache resp now =
        (Except.error (ApiError.notFoundError resp resp.body), cache)) ∧
    (500 ≤ resp.status →
      c.raise_for_status cache resp now =
        (Except.error (ApiError.serverError resp resp.body), cache)) ∧
    (¬(200 ≤ resp.status ∧ resp.status < 300) →
      (c.raise_for_status cache resp now).2 = cache) ∧
    (200 ≤ resp.status ∧ resp.status < 300 → c.usingCache = true →
      (c.raise_for_status cache resp now).2 =
        cacheSet cache resp.url ⟨now, resp.body⟩) := by
  refine ⟨?_, ?_, ?_, ?_, ?_⟩
  · intro h; simp [Client.raise_for_status, h]
  · intro h; simp [Client.raise_for_status, h]
  · intro h
    have h1 : ¬(200 ≤ resp.status ∧ resp.status < 300) := by omega
    have h2 : resp.status ≠ 401 := by omega
    have h3 : resp.status ≠ 404 := by omega
    simp [Client.raise_for_status, h, h1, h2, h3]
  · intro h
    unfold Client.raise_for_status
    simp only [h, if_false]
    by_cases h2 : resp.status = 401 <;> by_cases h3 : resp.status = 404 <;>
      by_cases h4 : 500 ≤ resp.status <;> simp [h2, h3, h4]
  · intro h hu; simp [Client.raise_for_status, h, hu]

/-- C4 witness: the classifier at concrete 401, 404, 502, 200 and 403
responses. -/
theorem status_error_taxonomy_witness :
    (let c : Client := ⟨"t", false, 10, false, true, 300⟩
     let body := Data.obj [("error", Data.str "x")]
     c.raise_for_status [] ⟨401, body, "u"⟩ 7 =
       (Except.error (ApiError.unauthorized ⟨401, body, "u"⟩ body), []) ∧
     c.raise_for_status [] ⟨404, body, "u"⟩ 7 =
       (Except.error (ApiError.notFoundError ⟨404, body, "u"⟩ body), []) ∧
     c.raise_for_status [] ⟨502, body, "u"⟩ 7 =
       (Except.error (ApiError.serverError ⟨502, body, "u"⟩ body), []) ∧
     (c.raise_for_status [] ⟨403, body, "u"⟩ 7).2 = [] ∧
     (c.raise_for_status [] ⟨200, body, "u"⟩ 7).2 = [("u", ⟨7, body⟩)]) := by
  refine ⟨?_, ?_, ?_, ?_, ?_⟩
  · exact (status_error_taxonomy _ [] ⟨401, _, "u"⟩ 7).1 rfl
  · exact (status_error_taxonomy _ [] ⟨404, _, "u"⟩ 7).2.1 rfl
  · exact (status_error_taxonomy _ [] ⟨502, _, "u"⟩ 7).2.2.1 (by decide)
  · exact (status_error_taxonomy _ [] ⟨403, _, "u"⟩ 7).2.2.2.1 (by decide)
  · exact (status_error_taxonomy _ [] ⟨200, _, "u"⟩ 7).2.2.2.2 (by decide) rfl

/-- C6: a request issued with the forced-refresh flag set skips the initial
cache lookup (it behaves exactly as the network half of `request`) and
performs a network fetch, whatever the cache holds and whether or not
caching is enabled. -/
theorem refresh_bypasses_cache (c : Client) (cache : Cache) (url : String)
    (params : List (String × String)) (now : Nat) (net : FetchOutcome) :
    c.request cache url true params now net = c.request_net cache now net ∧
    (c.request cache url true params now net).2.2 = true := by
  have h : c.request cache url true params now net = c.request_net cache now net := by
    simp [Client.request]
  refine ⟨h, ?_⟩
  rw [h]
  unfold Client.request_net
  by_cases ha : c.isAsync
  · rcases hr : c.arequest cache now net with ⟨r, cache1⟩
    simp [ha, hr]
  · cases net with
    | timeout => simp [ha]
    | ok resp =>
      rcases hr : c.raise_for_status cache resp now with ⟨r, cache1⟩
      cases r <;> simp [ha, hr]

/-- C2: with caching enabled, no forced refresh, and a cache entry under
the request's lookup key whose age is strictly below the configured expiry,
the pipeline returns the stored payload tagged as cache-sourced with the
entry's capture timestamp, leaves the cache unchanged, and performs no
network call (in either mode; the asynchronous hit is awaited). -/
theorem fresh_cache_hit_no_network (c : Client) (cache : Cache) (url : String)
    (params : List (String × String)) (now : Nat) (net : FetchOutcome)
    (e : CacheEntry)
    (hu : c.usingCache = true)
    (hget : cacheGet cache (bucket url params) = some e)
    (hfresh : (now : Int) - (e.c_timestamp : Int) < c.cacheReset) :
    observe (c.request cache url false params now net).1 =
      Except.ok (some (e.data, true, e.c_timestamp)) ∧
    (c.request cache url false params now net).2.1 = cache ∧
    (c.request cache url false params now net).2.2 = false := by
  have hhit : c.resolve_cache_hit cache url params now = some (e.data, e.c_timestamp) := by
    simp [Client.resolve_cache_hit, hget, hfresh]
  have hrc : c.request cache url false params now net =
      (if c.isAsync then
        (Except.ok (ReqRet.coro (Except.ok (some (e.data, true, e.c_timestamp)))), cache, false)
       else
        (Except.ok (ReqRet.val (some (e.data, true, e.c_timestamp))), cache, false)) := by
    unfold Client.request
    rw [resolve_cache_eq_map, hhit]
    by_cases ha : c.isAsync <;> simp [hu, ha]
  rw [hrc]
  by_cases ha : c.isAsync <;> simp [ha, observe]

/-- C2 witness: a concrete fresh hit is served from the cache with no
network call. -/
theorem fresh_cache_hit_no_network_witness :
    observe ((⟨"t", false, 10, false, true, 300⟩ : Client).request
        [("u", ⟨0, Data.num 5⟩)] "u" false [] 1 FetchOutcome.timeout).1 =
      Except.ok (some (Data.num 5, true, 0)) ∧
    ((⟨"t", false, 10, false, true, 300⟩ : Client).request
        [("u", ⟨0, Data.num 5⟩)] "u" false [] 1 FetchOutcome.timeout).2.1 =
      [("u", ⟨0, Data.num 5⟩)] ∧
    ((⟨"t", false, 10, false, true, 300⟩ : Client).request
        [("u", ⟨0, Data.num 5⟩)] "u" false [] 1 FetchOutcome.timeout).2.2 = false :=
  fresh_cache_hit_no_network _ _ _ _ _ _ ⟨0, Data.num 5⟩ rfl rfl (by decide)


/-! ### Characterization lemmas for the pipeline, stated over an arbitrary
client with its mode and cache switches as equational hypotheses. -/

theorem rfs_2xx (cl : Client) (cache : Cache) (resp : Response) (now : Nat)
    (h : 200 ≤ resp.status ∧ resp.status < 300) :
    cl.raise_for_status cache resp now =
      (Except.ok (some (resp.body, false, now)),
       if cl.usingCache then cacheSet cache resp.url ⟨now, resp.body⟩ else cache) := by
  simp [Client.raise_for_status, h]

theorem rfs_401 (cl : Client) (cache : Cache) (resp : Response) (now : Nat)
    (h : resp.status = 401) :
    cl.raise_for_status cache resp now =
      (Except.error (ApiError.unauthorized resp resp.body), cache) := by
  simp [Client.raise_for_status, h]

theorem rfs_404 (cl : Client) (cache : Cache) (resp : Response) (now : Nat)
    (h : resp.status = 404) :
    cl.raise_for_status cache resp now =
      (Except.error (ApiError.notFoundError resp resp.body), cache) := by
  simp [Client.raise_for_status, h]

theorem rfs_500 (cl : Client) (cache : Cache) (resp : Response) (now : Nat)
    (h : 500 ≤ resp.status) :
    cl.raise_for_status cache resp now =
      (Except.error (ApiError.serverError resp resp.body), cache) := by
  have h1 : ¬(200 ≤ resp.status ∧ resp.status < 300) := by omega
  have h2 : resp.status ≠ 401 := by omega
  have h3 : resp.status ≠ 404 := by omega
  simp [Client.raise_for_status, h, h1, h2, h3]

theorem rfs_other (cl : Client) (cache : Cache) (resp : Response) (now : Nat)
    (hn2 : ¬(200 ≤ resp.status ∧ resp.status < 300))
    (h401 : resp.status ≠ 401) (h404 : resp.status ≠ 404)
    (h500 : ¬500 ≤ resp.status) :
    cl.raise_for_status cache resp now = (Except.ok none, cache) := by
  simp [Client.raise_for_status, hn2, h401, h404, h500]

theorem request_of_hit (cl : Client) (cache : Cache) (url : String)
    (params : List (String × String)) (now : Nat) (net : FetchOutcome)
    (d : Data) (ts : Nat)
    (hu : cl.usingCache = true)
    (hhit : cl.resolve_cache_hit cache url params now = some (d, ts)) :
    cl.request cache url false params now net =
      (if cl.isAsync then
        (Except.ok (ReqRet.coro (Except.ok (some (d, true, ts)))), cache, false)
       else
        (Except.ok (ReqRet.val (some (d, true, ts))), cache, false)) := by
  unfold Client.request
  rw [resolve_cache_eq_map, hhit]
  by_cases ha : cl.isAsync <;> simp [hu, ha]

theorem request_eq_net_of_miss (cl : Client) (cache : Cache) (url : String)
    (params : List (String × String)) (now : Nat) (net : FetchOutcome)
    (hmiss : cl.resolve_cache_hit cache url params now = none) :
    cl.request cache url false params now net = cl.request_net cache now net := by
  unfold Client.request
  rw [resolve_cache_eq_map, hmiss]
  by_cases hu : cl.usingCache <;> simp [hu]

theorem request_net_timeout_sync (cl : Client) (cache : Cache) (now : Nat)
    (ha : cl.isAsync = false) :
    cl.request_net cache now FetchOutcome.timeout =
      (Except.error ApiError.notResponding, cache, true) := by
  simp [Client.request_net, ha]

theorem request_net_timeout_async (cl : Client) (cache : Cache) (now : Nat)
    (ha : cl.isAsync = true) :
    cl.request_net cache now FetchOutcome.timeout =
      (Except.ok (ReqRet.coro (Except.error ApiError.notResponding)), cache, true) := by
  simp [Client.request_net, Client.arequest, ha]

theorem request_net_resp_sync (cl : Client) (cache : Cache) (now : Nat)
    (resp : Response) (ha : cl.isAsync = false) :
    cl.request_net cache now (FetchOutcome.ok resp) =
      (match cl.raise_for_status cache resp now with
       | (Except.ok v, cache1) => (Except.ok (ReqRet.val v), cache1, true)
       | (Except.error e, cache1) => (Except.error e, cache1, true)) := by
  simp [Client.request_net, ha]

theorem request_net_resp_async (cl : Client) (cache : Cache) (now : Nat)
    (resp : Response) (ha : cl.isAsync = true) :
    cl.request_net cache now (FetchOutcome.ok resp) =
      (Except.ok (ReqRet.coro (cl.raise_for_status cache resp now).1),
       (cl.raise_for_status cache resp now).2, true) := by
  unfold Client.request_net Client.arequest
  rcases h : cl.raise_for_status cache resp now with ⟨r, cache1⟩
  simp [ha, h]

theorem get_model_data_of_hit (cl : Client) (cache : Cache) (url : String)
    (params : List (String × String)) (now : Nat) (net : FetchOutcome)
    (d : Data) (ts : Nat)
    (ha : cl.isAsync = false) (hu : cl.usingCache = true)
    (hhit : cl.resolve_cache_hit cache url params now = some (d, ts)) :
    cl.get_model_data cache url params now net =
      (Except.ok (d, true, ts), cache, false) := by
  unfold Client.get_model_data
  rw [request_of_hit cl cache url params now net d ts hu hhit, ha]
  simp

theorem aget_model_data_of_hit (cl : Client) (cache : Cache) (url : String)
    (params : List (String × String)) (now : Nat) (net : FetchOutcome)
    (d : Data) (ts : Nat)
    (ha : cl.isAsync = true) (hu : cl.usingCache = true)
    (hhit : cl.resolve_cache_hit cache url params now = some (d, ts)) :
    cl.aget_model_data cache url params now net =
      (Except.ok (d, true, ts), cache, false) := by
  unfold Client.aget_model_data
  rw [request_of_hit cl cache url params now net d ts hu hhit, ha]
  simp [observe]

theorem get_model_data_timeout_miss (cl : Client) (cache : Cache) (url : String)
    (params : List (String × String)) (now : Nat)
    (ha : cl.isAsync = false)
    (hmiss : cl.resolve_cache_hit cache url params now = none) :
    cl.get_model_data cache url params now FetchOutcome.timeout =
      (Except.error (PyError.api ApiError.notResponding), cache, true) := by
  unfold Client.get_model_data
  rw [request_eq_net_of_miss cl cache url params now _ hmiss,
      request_net_timeout_sync cl cache now ha]
  simp [fallback_resolve_of_miss cl _ cache url params now hmiss]

theorem aget_model_data_timeout_miss (cl : Client) (cache : Cache) (url : String)
    (params : List (String × String)) (now : Nat)
    (ha : cl.isAsync = true)
    (hmiss : cl.resolve_cache_hit cache url params now = none) :
    cl.aget_model_data cache url params now FetchOutcome.timeout =
      (Except.error (PyError.api ApiError.notResponding), cache, true) := by
  unfold Client.aget_model_data
  rw [request_eq_net_of_miss cl cache url params now _ hmiss,
      request_net_timeout_async cl cache now ha]
  simp [observe, fallback_resolve_of_miss cl _ cache url params now hmiss]

/-- C3: when the network fetch would time out, a valid (non-expired) cache
entry makes the call succeed with the cached payload, and the absence of
one makes `NotResponding` propagate unchanged — in both the blocking and
the deferred mode. -/
theorem timeout_cache_behavior (c : Client) (cache : Cache) (url : String)
    (params : List (String × String)) (now : Nat) (e : CacheEntry) :
    (c.usingCache = true →
      cacheGet cache (bucket url params) = some e →
      (now : Int) - (e.c_timestamp : Int) < c.cacheReset →
      Client.get_model_data { c with isAsync := false } cache url params now
          FetchOutcome.timeout
        = (Except.ok (e.data, true, e.c_timestamp), cache, false) ∧
      Client.aget_model_data { c with isAsync := true } cache url params now
          FetchOutcome.timeout
        = (Except.ok (e.data, true, e.c_timestamp), cache, false)) ∧
    (c.resolve_cache_hit cache url params now = none →
      Client.get_model_data { c with isAsync := false } cache url params now
          FetchOutcome.timeout
        = (Except.error (PyError.api ApiError.notResponding), cache, true) ∧
      Client.aget_model_data { c with isAsync := true } cache url params now
          FetchOutcome.timeout
        = (Except.error (PyError.api ApiError.notResponding), cache, true)) := by
  constructor
  · intro hu hget hfresh
    have hhit : c.resolve_cache_hit cache url params now = some (e.data, e.c_timestamp) := by
      simp [Client.resolve_cache_hit, hget, hfresh]
    exact ⟨get_model_data_of_hit _ _ _ _ _ _ _ _ rfl hu hhit,
           aget_model_data_of_hit _ _ _ _ _ _ _ _ rfl hu hhit⟩
  · intro hmiss
    exact ⟨get_model_data_timeout_miss _ _ _ _ _ rfl hmiss,
           aget_model_data_timeout_miss _ _ _ _ _ rfl hmiss⟩

/-- C3 witness: at a concrete timed-out fetch, a fresh entry is served in
both modes, and with an empty cache `NotResponding` propagates in both
modes. -/
theorem timeout_cache_behavior_witness :
    (Client.get_model_data ⟨"t", false, 10, false, true, 300⟩
        [("u", ⟨0, Data.num 5⟩)] "u" [] 1 FetchOutcome.timeout
      = (Except.ok (Data.num 5, true, 0), [("u", ⟨0, Data.num 5⟩)], false)) ∧
    (Client.aget_model_data ⟨"t", true, 10, false, true, 300⟩
        [("u", ⟨0, Data.num 5⟩)] "u" [] 1 FetchOutcome.timeout
      = (Except.ok (Data.num 5, true, 0), [("u", ⟨0, Data.num 5⟩)], false)) ∧
    (Client.get_model_data ⟨"t", false, 10, false, true, 300⟩ [] "u" [] 1
        FetchOutcome.timeout
      = (Except.error (PyError.api ApiError.notResponding), [], true)) ∧
    (Client.aget_model_data ⟨"t", true, 10, false, true, 300⟩ [] "u" [] 1
        FetchOutcome.timeout
      = (Except.error (PyError.api ApiError.notResponding), [], true)) := by
  refine ⟨?_, ?_, ?_, ?_⟩
  · exact ((timeout_cache_behavior ⟨"t", false, 10, false, true, 300⟩
      [("u", ⟨0, Data.num 5⟩)] "u" [] 1 ⟨0, Data.num 5⟩).1 rfl rfl (by decide)).1
  · exact ((timeout_cache_behavior ⟨"t", true, 10, false, true, 300⟩
      [("u", ⟨0, Data.num 5⟩)] "u" [] 1 ⟨0, Data.num 5⟩).1 rfl rfl (by decide)).2
  · exact ((timeout_cache_behavior ⟨"t", false, 10, false, true, 300⟩
      [] "u" [] 1 ⟨0, Data.num 5⟩).2 rfl).1
  · exact ((timeout_cache_behavior ⟨"t", true, 10, false, true, 300⟩
      [] "u" [] 1 ⟨0, Data.num 5⟩).2 rfl).2

/-- C9: a non-2xx status other than 401, 404 and the 500 range raises none
of the four error kinds — the classifier falls through returning `None` —
so the pipeline yields no triple: with no valid cache entry the caller's
unpacking fails with a generic `TypeError`, while with caching enabled and
a valid entry the call silently ends up serving the cached payload. -/
theorem unhandled_status_behavior (c : Client) (cache : Cache) (url : String)
    (params : List (String × String)) (now : Nat) (resp : Response)
    (e : CacheEntry)
    (hn2 : ¬(200 ≤ resp.status ∧ resp.status < 300))
    (h401 : resp.status ≠ 401) (h404 : resp.status ≠ 404)
    (h500 : ¬500 ≤ resp.status) :
    c.raise_for_status cache resp now = (Except.ok none, cache) ∧
    (c.resolve_cache_hit cache url params now = none →
      Client.get_model_data { c with isAsync := false } cache url params now
          (FetchOutcome.ok resp)
        = (Except.error PyError.typeError, cache, true)) ∧
    (c.usingCache = true → cacheGet cache (bucket url params) = some e →
      (now : Int) - (e.c_timestamp : Int) < c.cacheReset →
      Client.get_model_data { c with isAsync := false } cache url params now
          (FetchOutcome.ok resp)
        = (Except.ok (e.data, true, e.c_timestamp), cache, false)) := by
  refine ⟨rfs_other c cache resp now hn2 h401 h404 h500, ?_, ?_⟩
  · intro hmiss
    have hmiss1 : Client.resolve_cache_hit { c with isAsync := false }
        cache url params now = none := by
      rw [resolve_cache_hit_set_isAsync]; exact hmiss
    unfold Client.get_model_data
    rw [request_eq_net_of_miss _ cache url params now _ hmiss1,
        request_net_resp_sync _ cache now resp rfl,
        rfs_other _ cache resp now hn2 h401 h404 h500]
    simp [fallback_resolve_of_miss _ _ cache url params now hmiss1]
  · intro hu hget hfresh
    have hhit : Client.resolve_cache_hit { c with isAsync := false }
        cache url params now = some (e.data, e.c_timestamp) := by
      rw [resolve_cache_hit_set_isAsync]
      simp [Client.resolve_cache_hit, hget, hfresh]
    exact get_model_data_of_hit _ cache url params now _ _ _ rfl hu hhit

/-- C9 witness: a concrete 403 response — classifier falls through, the
empty-cache pipeline raises a generic `TypeError`, and a fresh cached
entry is served instead when present. -/
theorem unhandled_status_behavior_witness :
    ((⟨"t", false, 10, false, true, 300⟩ : Client).raise_for_status []
        ⟨403, Data.str "f", "u"⟩ 1 = (Except.ok none, []) ∧
     Client.get_model_data ⟨"t", false, 10, false, true, 300⟩ [] "u" [] 1
        (FetchOutcome.ok ⟨403, Data.str "f", "u"⟩)
      = (Except.error PyError.typeError, [], true)) ∧
    Client.get_model_data ⟨"t", false, 10, false, true, 300⟩
        [("u", ⟨0, Data.num 5⟩)] "u" [] 1
        (FetchOutcome.ok ⟨403, Data.str "f", "u"⟩)
      = (Except.ok (Data.num 5, true, 0), [("u", ⟨0, Data.num 5⟩)], false) := by
  refine ⟨⟨?_, ?_⟩, ?_⟩
  · exact (unhandled_status_behavior ⟨"t", false, 10, false, true, 300⟩ [] "u" [] 1
      ⟨403, Data.str "f", "u"⟩ ⟨0, Data.num 5⟩ (by decide) (by decide) (by decide)
      (by decide)).1
  · exact (unhandled_status_behavior ⟨"t", false, 10, false, true, 300⟩ [] "u" [] 1
      ⟨403, Data.str "f", "u"⟩ ⟨0, Data.num 5⟩ (by decide) (by decide) (by decide)
      (by decide)).2.1 rfl
  · exact (unhandled_status_behavior ⟨"t", false, 10, false, true, 300⟩
      [("u", ⟨0, Data.num 5⟩)] "u" [] 1 ⟨403, Data.str "f", "u"⟩ ⟨0, Data.num 5⟩
      (by decide) (by decide) (by decide) (by decide)).2.2 rfl rfl (by decide)

theorem request_eq_net_of_no_cache (cl : Client) (cache : Cache) (url : String)
    (refresh : Bool) (params : List (String × String)) (now : Nat)
    (net : FetchOutcome) (hu : cl.usingCache = false) :
    cl.request cache url refresh params now net = cl.request_net cache now net := by
  simp [Client.request, hu]

theorem fallback_resolve_of_no_cache (cl : Client) (e : PyError) (cache : Cache)
    (url : String) (params : List (String × String)) (now : Nat)
    (hu : cl.usingCache = false) :
    cl.fallback_resolve e cache url params now = Except.error e := by
  simp [Client.fallback_resolve, hu]

theorem model_data_net_equiv (c : Client) (cache : Cache) (url : String)
    (params : List (String × String)) (now : Nat) (net : FetchOutcome)
    (hreq : ∀ b : Bool,
      Client.request { c with isAsync := b } cache url false params now net =
        Client.request_net { c with isAsync := b } cache now net)
    (hfb : ∀ (b : Bool) (e : PyError),
      Client.fallback_resolve { c with isAsync := b } e cache url params now =
        Except.error e) :
    Client.aget_model_data { c with isAsync := true } cache url params now net =
      Client.get_model_data { c with isAsync := false } cache url params now net := by
  unfold Client.aget_model_data Client.get_model_data
  rw [hreq true, hreq false]
  cases net with
  | timeout =>
    rw [request_net_timeout_async { c with isAsync := true } cache now rfl,
        request_net_timeout_sync { c with isAsync := false } cache now rfl]
    simp [observe, hfb]
  | ok resp =>
    rw [request_net_resp_async { c with isAsync := true } cache now resp rfl,
        request_net_resp_sync { c with isAsync := false } cache now resp rfl]
    simp only [raise_for_status_set_isAsync]
    by_cases h2 : 200 ≤ resp.status ∧ resp.status < 300
    · rw [rfs_2xx c cache resp now h2]
      simp [observe]
    · by_cases h401 : resp.status = 401
      · rw [rfs_401 c cache resp now h401]; simp [observe, hfb]
      · by_cases h404 : resp.status = 404
        · rw [rfs_404 c cache resp now h404]; simp [observe, hfb]
        · by_cases h500 : 500 ≤ resp.status
          · rw [rfs_500 c cache resp now h500]; simp [observe, hfb]
          · rw [rfs_other c cache resp now h2 h401 h404 h500]; simp [observe, hfb]

/-- C1: the synchronous pipeline (`is_async = False`) and the asynchronous
pipeline (`is_async = True`, every returned awaitable driven to
completion) execute identical branching logic: given the same HTTP
outcome and cache state they produce the same `(payload, served_from_cache,
timestamp)` triple or the same error, the same final cache state, and the
same network usage. -/
theorem sync_async_same_outcome (c : Client) (cache : Cache) (url : String)
    (params : List (String × String)) (now : Nat) (net : FetchOutcome) :
    Client.aget_model_data { c with isAsync := true } cache url params now net =
      Client.get_model_data { c with isAsync := false } cache url params now net := by
  rcases Bool.eq_false_or_eq_true c.usingCache with hcu | hcu
  · rcases hhit : c.resolve_cache_hit cache url params now with _ | ⟨d, ts⟩
    · exact model_data_net_equiv c cache url params now net
        (fun b => request_eq_net_of_miss _ _ _ _ _ _
          (by rw [resolve_cache_hit_set_isAsync]; exact hhit))
        (fun b e => fallback_resolve_of_miss _ _ _ _ _ _
          (by rw [resolve_cache_hit_set_isAsync]; exact hhit))
    · rw [aget_model_data_of_hit _ cache url params now net d ts rfl
            (by rw [usingCache_set_isAsync]; exact hcu)
            (by rw [resolve_cache_hit_set_isAsync]; exact hhit),
          get_model_data_of_hit _ cache url params now net d ts rfl
            (by rw [usingCache_set_isAsync]; exact hcu)
            (by rw [resolve_cache_hit_set_isAsync]; exact hhit)]
  · exact model_data_net_equiv c cache url params now net
      (fun b => request_eq_net_of_no_cache _ _ _ _ _ _ _
        (by rw [usingCache_set_isAsync]; exact hcu))
      (fun b e => fallback_resolve_of_no_cache _ _ _ _ _ _
        (by rw [usingCache_set_isAsync]; exact hcu))

/-- C5 counterexample: caching enabled, two identical requests, the first
succeeding over the network with resolved URL `"u2"` while the lookup key
is `"u"`.  The entry is written under `"u2"`, the second lookup misses, a
second network call happens and the result is network-sourced — refuting
the claim that the written entry is always found by the subsequent lookup. -/
theorem cache_roundtrip_counterexample :
    ((⟨"t", false, 10, false, true, 300⟩ : Client).request [] "u" false [] 0
        (FetchOutcome.ok ⟨200, Data.num 1, "u2"⟩) =
      (Except.ok (ReqRet.val (some (Data.num 1, false, 0))),
       [("u2", ⟨0, Data.num 1⟩)], true)) ∧
    ((⟨"t", false, 10, false, true, 300⟩ : Client).request
        [("u2", ⟨0, Data.num 1⟩)] "u" false [] 1
        (FetchOutcome.ok ⟨200, Data.num 1, "u2"⟩)).2.2 = true ∧
    observe ((⟨"t", false, 10, false, true, 300⟩ : Client).request
        [("u2", ⟨0, Data.num 1⟩)] "u" false [] 1
        (FetchOutcome.ok ⟨200, Data.num 1, "u2"⟩)).1 =
      Except.ok (some (Data.num 1, false, 1)) :=
  ⟨rfl, rfl, rfl⟩

/-- C5 (amended): when the resolved response URL coincides with the locally
built lookup key, a first networked success writes the cache entry and a
second identical request within the expiry window is served from the cache
with the same payload, `served_from_cache = true`, and no network call. -/
theorem cache_roundtrip_when_keys_match (c : Client) (cache : Cache)
    (url : String) (params : List (String × String)) (resp : Response)
    (now1 now2 : Nat) (net2 : FetchOutcome)
    (ha : c.isAsync = false)
    (hu : c.usingCache = true)
    (h2xx : 200 ≤ resp.status ∧ resp.status < 300)
    (hkey : resp.url = bucket url params)
    (hmiss : c.resolve_cache_hit cache url params now1 = none)
    (hfresh : (now2 : Int) - (now1 : Int) < c.cacheReset) :
    c.request cache url false params now1 (FetchOutcome.ok resp) =
      (Except.ok (ReqRet.val (some (resp.body, false, now1))),
       cacheSet cache resp.url ⟨now1, resp.body⟩, true) ∧
    c.request (cacheSet cache resp.url ⟨now1, resp.body⟩) url false params now2
        net2 =
      (Except.ok (ReqRet.val (some (resp.body, true, now1))),
       cacheSet cache resp.url ⟨now1, resp.body⟩, false) := by
  constructor
  · rw [request_eq_net_of_miss c cache url params now1 _ hmiss,
        request_net_resp_sync c cache now1 resp ha,
        rfs_2xx c cache resp now1 h2xx]
    simp [hu]
  · have hhit2 : c.resolve_cache_hit (cacheSet cache resp.url ⟨now1, resp.body⟩)
        url params now2 = some (resp.body, now1) := by
      unfold Client.resolve_cache_hit
      rw [← hkey, cacheGet_set_self]
      simp [hfresh]
    rw [request_of_hit c _ url params now2 net2 _ _ hu hhit2, ha]
    simp

/-- C5 witness: the amended round trip at a concrete request whose resolved
URL equals the lookup key. -/
theorem cache_roundtrip_when_keys_match_witness :
    (⟨"t", false, 10, false, true, 300⟩ : Client).request [] "u" false [] 0
        (FetchOutcome.ok ⟨200, Data.num 1, "u"⟩) =
      (Except.ok (ReqRet.val (some (Data.num 1, false, 0))),
       cacheSet [] "u" ⟨0, Data.num 1⟩, true) ∧
    (⟨"t", false, 10, false, true, 300⟩ : Client).request
        (cacheSet [] "u" ⟨0, Data.num 1⟩) "u" false [] 1 FetchOutcome.timeout =
      (Except.ok (ReqRet.val (some (Data.num 1, true, 0))),
       cacheSet [] "u" ⟨0, Data.num 1⟩, false) :=
  cache_roundtrip_when_keys_match ⟨"t", false, 10, false, true, 300⟩ [] "u" []
    ⟨200, Data.num 1, "u"⟩ 0 1 FetchOutcome.timeout rfl rfl (by decide) rfl rfl
    (by decide)
